import Mathlib

/-!
Shallow embedding of `joycon/USBSwitchController.py` (nxpad2).

The Python class talks to a Switch controller accessory over USB HID.  The
protocol core is `send_command`: write the raw command bytes, then loop
reading fixed-size packets until one correlates with the request
(`resp.cmd_type == command[0] | 1 and resp.cmd == command[1]`), aborting on a
device-info error packet (`(0x81, 0x01)` with nonzero status) and resending
the identical command bytes for every other (discarded) packet.

The embedding replaces the USB transport by an explicit list of inbound
packets (the successive results of `usb_read`, each a fixed-size 64-byte
buffer; a timed-out read yields an all-zero buffer) and records the sequence
of `usb_write` calls as an explicit write trace.  Bytes are `Nat`s.  Python
`pkt[i]` on the fixed-size read buffers is total, embedded as `List.getD`;
Python slices `pkt[a : b]` become `(pkt.drop a).take (b - a)`.
-/

namespace NXPad2

/-- `USB_BUF_LEN = 64`, the class-level read-buffer constant. -/
def USB_BUF_LEN : Nat := 64

/-- Default `timeout` parameter of `usb_read`, in milliseconds (source: `def usb_read(self, length=None, timeout=200)`). -/
def USB_READ_DEFAULT_TIMEOUT_MS : Nat := 200

/-- `COMMAND_DEVICE_INFO = [0x80, 0x01]`. -/
def COMMAND_DEVICE_INFO : List Nat := [0x80, 0x01]

/-- `COMMAND_SEND_UART_COMMAND = [0x80, 0x92]`. -/
def COMMAND_SEND_UART_COMMAND : List Nat := [0x80, 0x92]

/-- `UART_COMMAND_SEND_BT_CMD = 0x00`. -/
def UART_COMMAND_SEND_BT_CMD : Nat := 0x00

/-- Length that `usb_read` passes to `dev.read`: `if length is None: length = self.USB_BUF_LEN`. -/
def usb_read_length (length : Option Nat) : Nat := length.getD USB_BUF_LEN

/-- Packet returned by `usb_read` when `dev.read` raises `USBError` (e.g. a
timeout): `array.array('B', [0] * length)`, an all-zero buffer of the
requested length. -/
def usb_read_on_timeout (length : Option Nat) : List Nat :=
  List.replicate (usb_read_length length) 0

/-- The `length` argument `send_command`'s read loop passes to `usb_read`:
the call on line 194 is `self.usb_read()`, i.e. no length argument. -/
def send_command_read_request : Option Nat := none

/-- `class UsbResponse`: parse of a raw packet, `cmd_type = pkt[0]`,
`cmd = pkt[1]`, `status = pkt[2]`, `data = pkt[3 : 3 + data_len]`. -/
structure UsbResponse where
  cmd_type : Nat
  cmd : Nat
  status : Nat
  data : List Nat
deriving DecidableEq, Repr

/-- `UsbResponse.__init__(s, pkt, data_len)`. -/
def UsbResponse.parse (pkt : List Nat) (data_len : Nat) : UsbResponse :=
  { cmd_type := pkt.getD 0 0
    cmd := pkt.getD 1 0
    status := pkt.getD 2 0
    data := (pkt.drop 3).take data_len }

/-- The correlation test of `send_command`, line 198:
`resp.cmd_type == command[0] | 1 and resp.cmd == command[1]`. -/
def correlates_with (command pkt : List Nat) : Prop :=
  pkt.getD 0 0 = command.getD 0 0 ||| 1 ∧ pkt.getD 1 0 = command.getD 1 0

instance (command pkt : List Nat) : Decidable (correlates_with command pkt) := by
  unfold correlates_with; infer_instance

/-- The fatal-abort test of `send_command`, line 203:
`(resp.cmd_type, resp.cmd) == (0x81, 0x01) and resp.status != 0`. -/
def is_fatal_device_info_error (pkt : List Nat) : Prop :=
  pkt.getD 0 0 = 0x81 ∧ pkt.getD 1 0 = 0x01 ∧ pkt.getD 2 0 ≠ 0

instance (pkt : List Nat) : Decidable (is_fatal_device_info_error pkt) := by
  unfold is_fatal_device_info_error; infer_instance

/-- A packet the loop discards (then resends the command): neither correlated
nor the fatal device-info error packet. -/
def discardable (command pkt : List Nat) : Prop :=
  ¬ correlates_with command pkt ∧ ¬ is_fatal_device_info_error pkt

instance (command pkt : List Nat) : Decidable (discardable command pkt) := by
  unfold discardable; infer_instance

/-- How `send_command`'s `while True` loop ends (or fails to). -/
inductive LoopResult where
  /-- The `break` on line 199: a correlated response was parsed. -/
  | correlated : UsbResponse → LoopResult
  /-- The `return None` on line 204: device-info error packet seen. -/
  | fatalAbort : LoopResult
  /-- The supplied packet stream ran out with the loop still waiting: the
  real loop would block and keep reading. -/
  | exhausted : LoopResult
deriving DecidableEq, Repr

/-- The `while True` read loop of `send_command` (lines 189-209), over an
explicit stream of inbound packets.  Returns how the loop ended together
with the trace of `usb_write(command)` resends it performed (line 209), in
order: one resend per discarded packet, placed before the following read. -/
def send_command_loop (command : List Nat) (response_length : Nat) :
    List (List Nat) → LoopResult × List (List Nat)
  | [] => (.exhausted, [])
  | pkt :: rest =>
    let resp := UsbResponse.parse pkt response_length
    if resp.cmd_type = command.getD 0 0 ||| 1 ∧ resp.cmd = command.getD 1 0 then
      (.correlated resp, [])
    else if resp.cmd_type = 0x81 ∧ resp.cmd = 0x01 ∧ resp.status ≠ 0 then
      (.fatalAbort, [])
    else
      let r := send_command_loop command response_length rest
      (r.1, command :: r.2)

/-- Observable result of a `send_command` call. -/
inductive SendResult where
  /-- The Python function returned.  `value` is the returned object
  (`none` embeds Python `None`, `some data` embeds `resp.data`); `warned`
  is whether the nonzero-status warning on line 213 was printed. -/
  | returned : Option (List Nat) → Bool → SendResult
  /-- The function is still blocked in its read loop after consuming every
  packet of the supplied stream. -/
  | running : SendResult
deriving DecidableEq, Repr

/-- `send_command(self, command, response_length)` over an explicit inbound
packet stream.  Produces the observable result together with the full trace
of `usb_write` calls (the initial write on line 183 followed by the loop's
resends). -/
def send_command (command : List Nat) (response_length : Nat)
    (packets : List (List Nat)) : SendResult × List (List Nat) :=
  if response_length = 0 then
    (.returned none false, [command])
  else
    match send_command_loop command response_length packets with
    | (.correlated resp, ws) =>
        (.returned (some resp.data) (decide (resp.status ≠ 0)), command :: ws)
    | (.fatalAbort, ws) => (.returned none false, command :: ws)
    | (.exhausted, ws) => (.running, command :: ws)

/-- `struct.pack("<BHBBB", command, len(argument), 0, 0, 0)`: one byte,
a little-endian `u16`, three zero bytes — six bytes in total (`<` disables
padding). -/
def struct_pack_BHBBB (command length : Nat) : List Nat :=
  [command, length % 256, length / 256 % 256, 0, 0, 0]

/-- The UART-layer request `send_uart_command` builds before prefixing the
outer tag: `command_header + argument`. -/
def uart_request (command : Nat) (argument : List Nat) : List Nat :=
  struct_pack_BHBBB command argument.length ++ argument

/-- The full packet `send_uart_command` hands to `send_command`:
`bytes(COMMAND_SEND_UART_COMMAND) + command_header + argument`. -/
def uart_packet (command : Nat) (argument : List Nat) : List Nat :=
  COMMAND_SEND_UART_COMMAND ++ uart_request command argument

/-- Observable result of the UART / bluetooth wrapper calls. -/
inductive PyValue where
  /-- Returned this byte string. -/
  | ok : List Nat → PyValue
  /-- Raised an unhandled `TypeError`: `raw_response[7:]` was evaluated with
  `raw_response = None` (`'NoneType' object is not subscriptable`). -/
  | typeError : PyValue
  /-- Still blocked inside `send_command`'s read loop. -/
  | running : PyValue
deriving DecidableEq, Repr

/-- `send_uart_command(self, command, argument)` over an explicit inbound
packet stream: build header and packet, call `send_command` (with its
default `response_length = USB_BUF_LEN`), then slice `raw_response[7:]`. -/
def send_uart_command (command : Nat) (argument : List Nat)
    (packets : List (List Nat)) : PyValue :=
  match (send_command (uart_packet command argument) USB_BUF_LEN packets).1 with
  | .returned (some raw) _ => .ok (raw.drop 7)
  | .returned none _ => .typeError
  | .running => .running

/-- The fixed neutral rumble pattern of `send_bluetooth_command`. -/
def rumble_neutral : List Nat :=
  [0x00, 0x00, 0x01, 0x40, 0x40, 0x00, 0x01, 0x40, 0x40]

/-- The frame `send_bluetooth_command` builds:
`command + rumble + subcommand + argument` (the two `to_bytes(1, 'little')`
calls require `command, subcommand < 256` and then yield those single
bytes). -/
def bt_frame (command subcommand : Nat) (argument : List Nat) : List Nat :=
  [command] ++ rumble_neutral ++ [subcommand] ++ argument

/-- The response slice of `send_bluetooth_command`, line 348:
`raw_response[15 : 15 + response_length]`.  Python slicing is total and
silently yields fewer bytes when `raw_response` is short. -/
def bt_response_slice (raw_response : List Nat) (response_length : Nat) : List Nat :=
  (raw_response.drop 15).take response_length

/-- `send_bluetooth_command(self, command, subcommand, argument,
response_length)` over an explicit inbound packet stream (the Python default
for `response_length` is 35). -/
def send_bluetooth_command (command subcommand : Nat) (argument : List Nat)
    (response_length : Nat) (packets : List (List Nat)) : PyValue :=
  match send_uart_command UART_COMMAND_SEND_BT_CMD
      (bt_frame command subcommand argument) packets with
  | .ok raw => .ok (bt_response_slice raw response_length)
  | .typeError => .typeError
  | .running => .running

/-- `int.from_bytes(b, byteorder='little')` on a byte string (each byte
below 256). -/
def int_from_bytes_le : List Nat → Nat
  | [] => 0
  | b :: rest => b + 256 * int_from_bytes_le rest

/-- The decoded device-info record built by `read_device_info`
(`{'type': joycon_type, 'mac': mac}`). -/
structure DeviceInfo where
  joycon_type : Nat
  mac : Nat
deriving DecidableEq, Repr

/-- The parsing step of `read_device_info` (lines 231-238):
`joycon_type = int.from_bytes(bytes(info[0:1]), 'little')`,
`mac = int.from_bytes(bytes(info[1:7]), 'little')`. -/
def parse_device_info (info : List Nat) : DeviceInfo :=
  { joycon_type := int_from_bytes_le (info.take 1)
    mac := int_from_bytes_le ((info.drop 1).take 6) }

/-! ## Helper lemmas -/

@[simp]
lemma UsbResponse.parse_cmd_type (pkt : List Nat) (n : Nat) :
    (UsbResponse.parse pkt n).cmd_type = pkt.getD 0 0 := rfl

@[simp]
lemma UsbResponse.parse_cmd (pkt : List Nat) (n : Nat) :
    (UsbResponse.parse pkt n).cmd = pkt.getD 1 0 := rfl

@[simp]
lemma UsbResponse.parse_status (pkt : List Nat) (n : Nat) :
    (UsbResponse.parse pkt n).status = pkt.getD 2 0 := rfl

@[simp]
lemma UsbResponse.parse_data (pkt : List Nat) (n : Nat) :
    (UsbResponse.parse pkt n).data = (pkt.drop 3).take n := rfl

lemma send_command_loop_correlated_head (command : List Nat) (rl : Nat)
    (pkt : List Nat) (rest : List (List Nat)) (h : correlates_with command pkt) :
    send_command_loop command rl (pkt :: rest) =
      (.correlated (UsbResponse.parse pkt rl), []) := by
  unfold correlates_with at h
  simp only [send_command_loop, UsbResponse.parse_cmd_type, UsbResponse.parse_cmd]
  rw [if_pos h]

lemma send_command_loop_fatal_head (command : List Nat) (rl : Nat)
    (pkt : List Nat) (rest : List (List Nat))
    (hc : ¬ correlates_with command pkt) (hf : is_fatal_device_info_error pkt) :
    send_command_loop command rl (pkt :: rest) = (.fatalAbort, []) := by
  unfold correlates_with at hc
  unfold is_fatal_device_info_error at hf
  simp only [send_command_loop, UsbResponse.parse_cmd_type, UsbResponse.parse_cmd,
    UsbResponse.parse_status]
  rw [if_neg hc, if_pos hf]

lemma send_command_loop_discard_head (command : List Nat) (rl : Nat)
    (pkt : List Nat) (rest : List (List Nat)) (h : discardable command pkt) :
    send_command_loop command rl (pkt :: rest) =
      ((send_command_loop command rl rest).1,
       command :: (send_command_loop command rl rest).2) := by
  obtain ⟨hc, hf⟩ := h
  unfold correlates_with at hc
  unfold is_fatal_device_info_error at hf
  simp only [send_command_loop, UsbResponse.parse_cmd_type, UsbResponse.parse_cmd,
    UsbResponse.parse_status]
  rw [if_neg hc, if_neg hf]

/-- Discarding a whole prefix of uncorrelated, non-fatal packets: the loop
outcome is that of the remaining stream, and one identical resend is
recorded per discarded packet. -/
lemma send_command_loop_discard_leading (command : List Nat) (rl : Nat)
    (junk rest : List (List Nat)) (h : ∀ p ∈ junk, discardable command p) :
    send_command_loop command rl (junk ++ rest) =
      ((send_command_loop command rl rest).1,
       List.replicate junk.length command ++ (send_command_loop command rl rest).2) := by
  induction junk with
  | nil => simp
  | cons p js ih =>
      have hp : discardable command p := h p (List.mem_cons_self p js)
      have hjs : ∀ q ∈ js, discardable command q := fun q hq => h q (List.mem_cons_of_mem p hq)
      rw [List.cons_append, send_command_loop_discard_head command rl p (js ++ rest) hp,
        ih hjs]
      simp [List.replicate_succ]

lemma getD_drop (l : List Nat) (n i : Nat) :
    (l.drop n).getD i 0 = l.getD (n + i) 0 := by
  simp [List.getD_eq_getElem?_getD, List.getElem?_drop]

lemma getD_take_of_lt (l : List Nat) (n i : Nat) (h : i < n) :
    (l.take n).getD i 0 = l.getD i 0 := by
  simp [List.getD_eq_getElem?_getD, List.getElem?_take, h]

/-- `int.from_bytes(_, 'little')` as a positional sum. -/
lemma int_from_bytes_le_eq_sum (l : List Nat) :
    int_from_bytes_le l = ∑ i ∈ Finset.range l.length, l.getD i 0 * 256 ^ i := by
  induction l with
  | nil => simp [int_from_bytes_le]
  | cons b bs ih =>
      rw [int_from_bytes_le, ih, List.length_cons, Finset.sum_range_succ']
      simp only [List.getD_cons_succ, List.getD_cons_zero, pow_zero, mul_one, pow_succ]
      rw [Finset.mul_sum, add_comm]
      congr 1
      exact Finset.sum_congr rfl fun x _ => by ring

/-! ## Claim theorems -/

/-- Claim C1: for every valid outer command `g :: o :: payload` with
`g ∈ {0x80, 0x82}`, while `send_command` waits for a response, a packet whose
byte 0 is `g ||| 1` and whose byte 1 is `o` is accepted as the correlated
response and the read loop exits successfully (returning the packet's data
bytes), no matter how many uncorrelated packets were read and discarded
before it. -/
theorem send_command_accepts_correlated_after_any_junk
    (g o rl : Nat) (payload : List Nat) (junk : List (List Nat))
    (good : List Nat) (rest : List (List Nat))
    (_hg : g = 0x80 ∨ g = 0x82) (hrl : rl ≠ 0)
    (hjunk : ∀ p ∈ junk, discardable (g :: o :: payload) p)
    (hgood0 : good.getD 0 0 = g ||| 1) (hgood1 : good.getD 1 0 = o) :
    (send_command (g :: o :: payload) rl (junk ++ good :: rest)).1 =
      .returned (some ((good.drop 3).take rl)) (decide (good.getD 2 0 ≠ 0)) := by
  have hcorr : correlates_with (g :: o :: payload) good := ⟨hgood0, hgood1⟩
  unfold send_command
  rw [if_neg hrl, send_command_loop_discard_leading _ _ _ _ hjunk,
    send_command_loop_correlated_head _ _ _ _ hcorr]
  rfl

theorem send_command_accepts_correlated_after_any_junk_witness :
    (∀ p ∈ [[0x05, 0x06, 0x07]], discardable [0x80, 0x01] p) ∧
    (send_command [0x80, 0x01] 8
        ([[0x05, 0x06, 0x07]] ++ [0x81, 0x01, 0x00, 9, 9, 9, 9, 9, 9, 9, 9] :: [])).1 =
      .returned (some (([0x81, 0x01, 0x00, 9, 9, 9, 9, 9, 9, 9, 9].drop 3).take 8))
        (decide (List.getD [0x81, 0x01, 0x00, 9, 9, 9, 9, 9, 9, 9, 9] 2 0 ≠ 0)) :=
  ⟨by decide,
   send_command_accepts_correlated_after_any_junk 0x80 0x01 8 [] _ _ []
     (Or.inl rfl) (by decide) (by decide) (by decide) (by decide)⟩

/-- Claim C2: every read packet that is neither correlated nor the device-info
fatal-error packet causes the identical request bytes to be rewritten to the
transport; over a whole exchange the write trace is the initial write followed
by exactly one resend of the identical command bytes per discarded packet. -/
theorem send_command_resends_identical_bytes_per_discarded_packet
    (g o rl : Nat) (payload : List Nat) (junk : List (List Nat))
    (good : List Nat) (rest : List (List Nat))
    (hrl : rl ≠ 0)
    (hjunk : ∀ p ∈ junk, discardable (g :: o :: payload) p)
    (hgood0 : good.getD 0 0 = g ||| 1) (hgood1 : good.getD 1 0 = o) :
    (send_command (g :: o :: payload) rl (junk ++ good :: rest)).2 =
      (g :: o :: payload) :: List.replicate junk.length (g :: o :: payload) := by
  have hcorr : correlates_with (g :: o :: payload) good := ⟨hgood0, hgood1⟩
  unfold send_command
  rw [if_neg hrl, send_command_loop_discard_leading _ _ _ _ hjunk,
    send_command_loop_correlated_head _ _ _ _ hcorr]
  simp

theorem send_command_resends_identical_bytes_per_discarded_packet_witness :
    (∀ p ∈ [[0x05, 0x06, 0x07], [0xff, 0xff, 0x00]], discardable [0x80, 0x02] p) ∧
    (send_command [0x80, 0x02] 8
        ([[0x05, 0x06, 0x07], [0xff, 0xff, 0x00]] ++ [0x81, 0x02, 0x00] :: [])).2 =
      [0x80, 0x02] :: List.replicate
        (List.length [[0x05, 0x06, 0x07], [0xff, 0xff, 0x00]]) [0x80, 0x02] :=
  ⟨by decide,
   send_command_resends_identical_bytes_per_discarded_packet 0x80 0x02 8 [] _ _ []
     (by decide) (by decide) (by decide) (by decide)⟩

/-- Claim C3 counterexample: issuing the device-info command `[0x80, 0x01]`
and receiving first a packet with `cmd_type = 0x81`, `cmd = 0x01` and nonzero
status does NOT abort: the correlation test (line 198) fires before the
fatal-error test (line 203), because `0x80 ||| 1 = 0x81` and the opcodes
match, so `send_command` returns the packet's data bytes (with the nonzero
status warning) instead of returning `None`. -/
theorem send_command_device_info_error_packet_is_accepted :
    send_command COMMAND_DEVICE_INFO 8 [0x81 :: 0x01 :: 0x05 :: List.replicate 61 0] =
      (.returned (some (List.replicate 8 0)) true, [COMMAND_DEVICE_INFO]) ∧
    SendResult.returned (some (List.replicate 8 0)) true ≠
      SendResult.returned none false := by
  refine ⟨by decide, by decide⟩

/-- Claim C3 amended: if the caller issues the device-info command
`{0x80, 0x01}` and the first packet read has `cmd_type = 0x81`, `cmd = 0x01`
and nonzero status, `send_command` treats the packet as the correlated
response: it exits the loop with zero resends, surfaces the nonzero-status
warning, and returns the packet's data bytes (it does not abort). -/
theorem send_command_device_info_error_packet_correlates
    (rl : Nat) (pkt : List Nat) (rest : List (List Nat))
    (hrl : rl ≠ 0) (h0 : pkt.getD 0 0 = 0x81) (h1 : pkt.getD 1 0 = 0x01)
    (h2 : pkt.getD 2 0 ≠ 0) :
    send_command COMMAND_DEVICE_INFO rl (pkt :: rest) =
      (.returned (some ((pkt.drop 3).take rl)) true, [COMMAND_DEVICE_INFO]) := by
  have e1 : COMMAND_DEVICE_INFO.getD 0 0 ||| 1 = 0x81 := by decide
  have e2 : COMMAND_DEVICE_INFO.getD 1 0 = 0x01 := by decide
  have hcorr : correlates_with COMMAND_DEVICE_INFO pkt :=
    ⟨by rw [e1]; exact h0, by rw [e2]; exact h1⟩
  unfold send_command
  rw [if_neg hrl, send_command_loop_correlated_head _ _ _ _ hcorr]
  show (SendResult.returned (some ((pkt.drop 3).take rl)) (decide (pkt.getD 2 0 ≠ 0)),
      [COMMAND_DEVICE_INFO]) =
    (SendResult.returned (some ((pkt.drop 3).take rl)) true, [COMMAND_DEVICE_INFO])
  rw [decide_eq_true h2]

theorem send_command_device_info_error_packet_correlates_witness :
    (List.getD [0x81, 0x01, 0x05] 2 0 ≠ 0) ∧
    send_command COMMAND_DEVICE_INFO 8 [[0x81, 0x01, 0x05]] =
      (.returned (some (([0x81, 0x01, 0x05].drop 3).take 8)) true,
       [COMMAND_DEVICE_INFO]) :=
  ⟨by decide,
   send_command_device_info_error_packet_correlates 8 [0x81, 0x01, 0x05] []
     (by decide) (by decide) (by decide) (by decide)⟩

/-- Claim C4 counterexample: with `expected_response_len = 8` (the nonzero
device-info response length) the claim predicts each loop read requests
`8 + 3 = 11` bytes, but `send_command`'s loop calls `usb_read()` with no
length argument, which requests `USB_BUF_LEN = 64` bytes. -/
theorem send_command_read_length_is_not_response_len_plus_3 :
    usb_read_length send_command_read_request = 64 ∧
    usb_read_length send_command_read_request ≠ 8 + 3 := by
  refine ⟨rfl, by decide⟩

/-- Claim C4 amended: each read performed by the loop requests a packet of
`USB_BUF_LEN = 64` bytes regardless of `expected_response_len`, with the
default per-read timeout of 200 ms; a timed-out read yields an all-zero
packet of those 64 bytes instead of failing the loop. -/
theorem send_command_loop_read_defaults :
    usb_read_length send_command_read_request = USB_BUF_LEN ∧
    USB_READ_DEFAULT_TIMEOUT_MS = 200 ∧
    usb_read_on_timeout send_command_read_request = List.replicate USB_BUF_LEN 0 := by
  refine ⟨rfl, rfl, rfl⟩

/-- Claim C5 counterexample: a correlated relay response whose UART payload is
empty (total raw packet 3 bytes) makes `send_bluetooth_command` return the
normal value `[]` — zero bytes, fewer than the requested 35 — with no
`MalformedResponse` (or any) error: Python's slice `raw[15 : 15 + 35]`
silently truncates. -/
theorem send_bluetooth_command_truncates_short_response :
    send_bluetooth_command 0x01 0x02 [] 35 [[0x81, 0x92, 0x00]] = .ok [] ∧
    PyValue.ok ([] : List Nat) ≠ PyValue.typeError := by
  refine ⟨by decide, by decide⟩

/-- Claim C5 amended: for a UART response payload of length at least
`15 + response_len`, `send_bluetooth_command`'s slice returns exactly the
bytes at positions `[15, 15 + response_len)`; for any shorter payload it
silently returns just the bytes after position 15 (fewer than
`response_len`), raising no error. -/
theorem bt_response_slice_spec (raw : List Nat) (rl : Nat) :
    (15 + rl ≤ raw.length →
      (bt_response_slice raw rl).length = rl ∧
      ∀ i, i < rl → (bt_response_slice raw rl).getD i 0 = raw.getD (15 + i) 0) ∧
    (raw.length < 15 + rl → (bt_response_slice raw rl).length = raw.length - 15) := by
  constructor
  · intro h
    constructor
    · unfold bt_response_slice
      rw [List.length_take, List.length_drop]
      omega
    · intro i hi
      unfold bt_response_slice
      rw [getD_take_of_lt _ _ _ hi, getD_drop]
  · intro h
    unfold bt_response_slice
    rw [List.length_take, List.length_drop]
    omega

theorem bt_response_slice_spec_witness :
    (15 + 2 ≤ (List.replicate 20 3).length) ∧
    (bt_response_slice (List.replicate 20 3) 2).length = 2 :=
  ⟨by decide, ((bt_response_slice_spec (List.replicate 20 3) 2).1 (by decide)).1⟩

/-- Claim C6 counterexample: the UART-layer request built by
`send_uart_command` for command `0x01` and an empty argument is
`struct.pack("<BHBBB", 1, 0, 0, 0, 0)` — six bytes, not the seven the claim
asserts (1 command byte + 2 length bytes + 3 reserved bytes = 6). -/
theorem uart_request_header_is_six_bytes :
    (uart_request 0x01 []).length = 6 ∧ (uart_request 0x01 []).length ≠ 7 := by
  refine ⟨rfl, by decide⟩

/-- Claim C6 amended: for every UART command byte `c` and argument of length
`N < 2^16`, the UART request is a fixed SIX-byte header — the command byte
`c`, then `N` as a little-endian `u16`, then 3 reserved zero bytes — followed
by the argument bytes. -/
theorem uart_request_layout (c : Nat) (argument : List Nat)
    (h : argument.length < 65536) :
    (struct_pack_BHBBB c argument.length).length = 6 ∧
    (struct_pack_BHBBB c argument.length).getD 0 0 = c ∧
    int_from_bytes_le (((struct_pack_BHBBB c argument.length).drop 1).take 2) =
      argument.length ∧
    (struct_pack_BHBBB c argument.length).drop 3 = [0, 0, 0] ∧
    uart_request c argument = struct_pack_BHBBB c argument.length ++ argument ∧
    (uart_request c argument).drop 6 = argument := by
  refine ⟨rfl, rfl, ?_, rfl, rfl, ?_⟩
  · show argument.length % 256 + 256 * (argument.length / 256 % 256 + 256 * 0) =
      argument.length
    omega
  · show (struct_pack_BHBBB c argument.length ++ argument).drop 6 = argument
    rfl

theorem uart_request_layout_witness :
    (List.length [1, 2, 3] < 65536) ∧
    int_from_bytes_le (((struct_pack_BHBBB 7 (List.length [1, 2, 3])).drop 1).take 2) =
      List.length [1, 2, 3] :=
  ⟨by decide, (uart_request_layout 7 [1, 2, 3] (by decide)).2.2.1⟩

/-- Claim C7: when the loop exits with a correlated response, `send_command`
returns the response's data bytes whether the status byte is zero or not; a
nonzero status only flips the (non-fatal) warning flag, the returned value is
`some data` exactly as in the zero-status case. -/
theorem send_command_nonzero_status_still_returns_data
    (command good : List Nat) (rl : Nat) (rest : List (List Nat))
    (hrl : rl ≠ 0)
    (hgood0 : good.getD 0 0 = command.getD 0 0 ||| 1)
    (hgood1 : good.getD 1 0 = command.getD 1 0) :
    (send_command command rl (good :: rest)).1 =
      .returned (some ((good.drop 3).take rl)) (decide (good.getD 2 0 ≠ 0)) := by
  unfold send_command
  rw [if_neg hrl, send_command_loop_correlated_head _ _ _ _ ⟨hgood0, hgood1⟩]
  rfl

theorem send_command_nonzero_status_still_returns_data_witness :
    (List.getD [0x83, 0x02, 0x07, 0xAA, 0xBB] 0 0 = List.getD [0x82, 0x02] 0 0 ||| 1) ∧
    (send_command [0x82, 0x02] 2 [[0x83, 0x02, 0x07, 0xAA, 0xBB]]).1 =
      .returned (some (([0x83, 0x02, 0x07, 0xAA, 0xBB].drop 3).take 2))
        (decide (List.getD [0x83, 0x02, 0x07, 0xAA, 0xBB] 2 0 ≠ 0)) :=
  ⟨by decide,
   send_command_nonzero_status_still_returns_data [0x82, 0x02] _ 2 []
     (by decide) (by decide) (by decide)⟩

/-- Claim C8: device-info decoding is a deterministic, total function of its
8-byte input: decoding the same bytes twice yields identical results, byte 0
becomes the joycon type, bytes 1..7 (exclusive upper bound) become the mac as
a little-endian unsigned integer; decoding `[0x01]` followed by the
little-endian bytes of `0x112233445566` (and the unused eighth byte) yields
type 1 and mac `0x112233445566`. -/
theorem parse_device_info_spec (info : List Nat) (h : info.length = 8) :
    parse_device_info info = parse_device_info info ∧
    (parse_device_info info).joycon_type = info.getD 0 0 ∧
    (parse_device_info info).mac =
      ∑ i ∈ Finset.range 6, info.getD (1 + i) 0 * 256 ^ i ∧
    parse_device_info [0x01, 0x66, 0x55, 0x44, 0x33, 0x22, 0x11, 0x00] =
      ⟨0x01, 0x112233445566⟩ := by
  refine ⟨rfl, ?_, ?_, by decide⟩
  · cases info with
    | nil => simp at h
    | cons a t => simp [parse_device_info, int_from_bytes_le]
  · have e : (parse_device_info info).mac = int_from_bytes_le ((info.drop 1).take 6) := rfl
    rw [e, int_from_bytes_le_eq_sum]
    have hlen : ((info.drop 1).take 6).length = 6 := by
      rw [List.length_take, List.length_drop, h]
      decide
    rw [hlen]
    refine Finset.sum_congr rfl ?_
    intro i hi
    rw [getD_take_of_lt _ _ _ (Finset.mem_range.mp hi), getD_drop]

theorem parse_device_info_spec_witness :
    (List.length [1, 2, 3, 4, 5, 6, 7, 8] = 8) ∧
    (parse_device_info [1, 2, 3, 4, 5, 6, 7, 8]).joycon_type =
      List.getD [1, 2, 3, 4, 5, 6, 7, 8] 0 0 :=
  ⟨rfl, (parse_device_info_spec [1, 2, 3, 4, 5, 6, 7, 8] (by decide)).2.1⟩

/-- Claim C9: no overall deadline exists across the resend loop: for any
valid command `g :: o :: payload` (`g ∈ {0x80, 0x82}`) with nonzero expected
response length, if every read times out (each yielding the all-zero 64-byte
packet, which never satisfies the correlation test — its `cmd_type` 0 differs
from `g ||| 1` — nor the fatal-abort test), then after any number `n` of such
reads `send_command` is still blocked in its loop, having resent the command
`n` times: it never returns. -/
theorem send_command_never_returns_on_all_timeouts
    (g o rl n : Nat) (payload : List Nat)
    (hg : g = 0x80 ∨ g = 0x82) (hrl : rl ≠ 0) :
    send_command (g :: o :: payload) rl
        (List.replicate n (usb_read_on_timeout send_command_read_request)) =
      (.running, List.replicate (n + 1) (g :: o :: payload)) := by
  have hzero : ∀ i : Nat, (usb_read_on_timeout send_command_read_request).getD i 0 = 0 := by
    intro i
    show (List.replicate 64 0).getD i 0 = 0
    rw [List.getD_eq_getElem?_getD, List.getElem?_replicate]
    rcases Nat.lt_or_ge i 64 with hi | hi
    · rw [if_pos hi]; rfl
    · rw [if_neg (Nat.not_lt.mpr hi)]; rfl
  have hdisc : discardable (g :: o :: payload) (usb_read_on_timeout send_command_read_request) := by
    constructor
    · rintro ⟨hc0, -⟩
      rw [hzero 0] at hc0
      simp only [List.getD_cons_zero] at hc0
      rcases hg with rfl | rfl
      · exact absurd hc0 (by decide)
      · exact absurd hc0 (by decide)
    · rintro ⟨hf0, -, -⟩
      rw [hzero 0] at hf0
      exact absurd hf0 (by decide)
  have hjunk : ∀ p ∈ List.replicate n (usb_read_on_timeout send_command_read_request),
      discardable (g :: o :: payload) p := by
    intro p hp
    rw [List.eq_of_mem_replicate hp]
    exact hdisc
  unfold send_command
  rw [if_neg hrl]
  rw [show List.replicate n (usb_read_on_timeout send_command_read_request) =
      List.replicate n (usb_read_on_timeout send_command_read_request) ++ [] from
    (List.append_nil _).symm]
  rw [send_command_loop_discard_leading _ _ _ _ hjunk]
  rw [show send_command_loop (g :: o :: payload) rl ([] : List (List Nat)) =
      ((.exhausted : LoopResult), ([] : List (List Nat))) from rfl]
  simp [List.replicate_succ]

theorem send_command_never_returns_on_all_timeouts_witness :
    ((0x80 : Nat) = 0x80 ∨ (0x80 : Nat) = 0x82) ∧
    send_command [0x80, 0x01] 8
        (List.replicate 2 (usb_read_on_timeout send_command_read_request)) =
      (.running, List.replicate 3 [0x80, 0x01]) :=
  ⟨Or.inl rfl,
   send_command_never_returns_on_all_timeouts 0x80 0x01 8 2 [] (Or.inl rfl) (by decide)⟩

/-- If the first packet read is the device-info error packet, a `send_command`
call made for the fixed UART relay command `{0x80, 0x92}` takes the
fatal-abort branch and returns `None`: the packet cannot correlate because
its `cmd` byte `0x01` differs from the relay opcode `0x92`. -/
lemma send_command_uart_fatal (c : Nat) (a : List Nat) (pkt : List Nat)
    (rest : List (List Nat))
    (h0 : pkt.getD 0 0 = 0x81) (h1 : pkt.getD 1 0 = 0x01) (h2 : pkt.getD 2 0 ≠ 0) :
    (send_command (uart_packet c a) USB_BUF_LEN (pkt :: rest)).1 =
      .returned none false := by
  have hc : ¬ correlates_with (uart_packet c a) pkt := by
    rintro ⟨-, hcc⟩
    rw [h1] at hcc
    rw [show (uart_packet c a).getD 1 0 = 0x92 from rfl] at hcc
    exact absurd hcc (by decide)
  have hf : is_fatal_device_info_error pkt := ⟨h0, h1, h2⟩
  unfold send_command
  rw [if_neg (show ¬ USB_BUF_LEN = 0 by decide),
    send_command_loop_fatal_head _ _ _ _ hc hf]

/-- Claim C10: when the Command Channel's fatal-error shortcut fires during a
UART exchange (`send_command` returns `None`), `send_uart_command` slices the
absent response (`None[7:]`) and so raises an unhandled `TypeError` instead
of returning a value or a distinguishable error result, and
`send_bluetooth_command` inherits the same failure: callers cannot observe
the abort through these layers as a normal result. -/
theorem uart_layers_raise_on_correlation_abort
    (cmd sub rl : Nat) (argument : List Nat) (pkt : List Nat)
    (rest : List (List Nat))
    (h0 : pkt.getD 0 0 = 0x81) (h1 : pkt.getD 1 0 = 0x01) (h2 : pkt.getD 2 0 ≠ 0) :
    send_uart_command cmd argument (pkt :: rest) = .typeError ∧
    send_bluetooth_command cmd sub argument rl (pkt :: rest) = .typeError := by
  constructor
  · unfold send_uart_command
    rw [send_command_uart_fatal cmd argument pkt rest h0 h1 h2]
  · unfold send_bluetooth_command send_uart_command
    rw [send_command_uart_fatal UART_COMMAND_SEND_BT_CMD (bt_frame cmd sub argument)
      pkt rest h0 h1 h2]

theorem uart_layers_raise_on_correlation_abort_witness :
    (List.getD [0x81, 0x01, 0x01] 2 0 ≠ 0) ∧
    send_uart_command 1 [] [[0x81, 0x01, 0x01]] = .typeError :=
  ⟨by decide,
   (uart_layers_raise_on_correlation_abort 1 2 35 [] [0x81, 0x01, 0x01] []
     (by decide) (by decide) (by decide)).1⟩

end NXPad2
